import Mathlib

/-!
Shallow embedding of the goatsms dispatch coordinator (internal/sender/sender.go),
the modem connection state machine (internal/modem/modem.go and its PDU-mode
variant), and the relevant store types (internal/db/db.go).

Channels are modelled by the values that cross them: each select-branch of the
Go loops becomes a step function taking the received value (and the result of
any external call, such as a database query) as input, and returning the new
coordinator state together with the list of messages offered or persisted.
-/

namespace GoatSMS

/-- SMSStatus from internal/db/db.go: Pending = 0, Sent = 1, Errored = 2, Canceled = 3. -/
inductive SMSStatus
  | pending
  | sent
  | errored
  | canceled
deriving DecidableEq

/-- SMS from internal/db/db.go (the store timestamps are owned by the store and
not touched by the coordinator or the modems, so they are omitted). -/
structure SMS where
  uuid : String
  mobile : String
  body : String
  status : SMSStatus
  retries : Int
  device : String
deriving DecidableEq

/-- SMSRetryLimit from internal/db/db.go. -/
def SMSRetryLimit : Int := 3

/-- Classification of the error returned by the send attempt, mirroring the
cases of the switch in GSMModem.sender (internal/modem/modem.go): nil,
at.ErrClosed, context.Canceled, context.DeadlineExceeded, and the default case. -/
inductive SendErr
  | ok
  | errClosed
  | canceled
  | deadlineExceeded
  | other
deriving DecidableEq

/-- Outcome of one iteration of the GSMModem.sender loop body after it has
claimed a message from the req channel: either the (possibly updated) message
is placed on the rsp channel and the loop continues, or it is placed on the
rsp channel and the loop returns, or the loop returns without reporting.
The ctx.Done, modem.Closed and closed-req select branches produce exit. -/
inductive SenderAction
  | exit
  | report (sms : SMS)
  | reportAndExit (sms : SMS)
deriving DecidableEq

/-- The message a SenderAction places on the rsp channel, if any. -/
def SenderAction.reported : SenderAction → Option SMS
  | .exit => none
  | .report s => some s
  | .reportAndExit s => some s

/-- The switch on the send error in GSMModem.sender (internal/modem/modem.go
lines 106-127, identically in the PDU-mode variant): nil sets Sent and the
device id; at.ErrClosed reports the message unmodified and returns;
context.Canceled and context.DeadlineExceeded have empty case bodies, so
control falls out of the switch to the unconditional rsp <- sms; the default
case marks Errored at the retry limit or increments the retry count. -/
def senderStep (deviceID : String) (sms : SMS) (err : SendErr) : SenderAction :=
  match err with
  | .ok => .report { sms with status := .sent, device := deviceID }
  | .errClosed => .reportAndExit sms
  | .canceled => .report sms
  | .deadlineExceeded => .report sms
  | .other =>
    if SMSRetryLimit ≤ sms.retries then
      .report { sms with status := .errored }
    else
      .report { sms with retries := sms.retries + 1 }

/-- The admission loop of Sender.fillPool (internal/sender/sender.go lines
111-121): for each row returned by the store, a message whose UUID is not yet
in the pool is inserted into the pool and offered on the req channel; the loop
breaks when, after the insertion, len(pool) >= poolSize. Returns the new pool
and the list of messages offered, in order. -/
def fillLoop (poolSize : Nat) (pool : Finset String) : List SMS → Finset String × List SMS
  | [] => (pool, [])
  | sms :: rest =>
    if sms.uuid ∈ pool then fillLoop poolSize pool rest
    else
      let pool1 := insert sms.uuid pool
      if poolSize ≤ pool1.card then (pool1, [sms])
      else
        let r := fillLoop poolSize pool1 rest
        (r.1, sms :: r.2)

/-- Result of Sender.fillPool: the new pool, the messages offered on the req
channel, and the backlogged flag it returns. -/
structure FillOutcome where
  pool : Finset String
  offers : List SMS
  backlogged : Bool
deriving DecidableEq

/-- Sender.fillPool (internal/sender/sender.go lines 102-123). The result of
the external GetPendingMessages call is passed in: none models an error, in
which case fillPool returns false immediately and touches nothing; otherwise
backlogged is set when at least poolSize rows were returned, and the admission
loop runs. -/
def fillPool (poolSize : Nat) (pool : Finset String)
    (dbResult : Option (List SMS)) : FillOutcome :=
  match dbResult with
  | none => { pool := pool, offers := [], backlogged := false }
  | some pendingMsgs =>
    let bl := if poolSize ≤ pendingMsgs.length then true else false
    let r := fillLoop poolSize pool pendingMsgs
    { pool := r.1, offers := r.2, backlogged := bl }

/-- Result of the add-channel branch of Sender.Run: the new pool and the
messages offered on the req channel. -/
structure AddOutcome where
  pool : Finset String
  offers : List SMS
deriving DecidableEq

/-- The add-channel branch of Sender.Run (internal/sender/sender.go lines
73-78). db.InsertMessage(sms) is called first and its error discarded: the
insertErr argument models that result and is never read, exactly as in the Go
code. Admission requires len(pool) < poolSize and not backlogged. -/
def addStep (poolSize : Nat) (pool : Finset String) (backlogged : Bool)
    (sms : SMS) ( _insertErr : Bool) : AddOutcome :=
  if pool.card < poolSize ∧ backlogged = false then
    { pool := insert sms.uuid pool, offers := [sms] }
  else
    { pool := pool, offers := [] }

/-- The value Sender.AddMessage returns to the producer. Its Go signature is
func (s *Sender) AddMessage(sms store.SMS) — no return value at all — and the
coordinator discards the InsertMessage error, so the producer observes no
error regardless of the store outcome (the HTTP handler in the dashboard
likewise answers 200 ok unconditionally). -/
def addMessageProducerResult ( _sms : SMS) ( _insertErr : Bool) : Option String :=
  none

/-- Result of the rsp-channel branch of Sender.Run: the messages persisted via
UpdateMessageStatus, the new pool, the messages offered on the req channel,
the new backlogged flag, and whether fillPool was invoked. -/
structure RspOutcome where
  persisted : List SMS
  pool : Finset String
  offers : List SMS
  backlogged : Bool
  refilled : Bool
deriving DecidableEq

/-- The rsp-channel branch of Sender.Run (internal/sender/sender.go lines
79-90). The message is persisted via UpdateMessageStatus unconditionally; a
Pending message is re-offered on the req channel with the pool untouched;
otherwise its UUID is deleted from the pool and fillPool runs exactly when the
pool became empty or fell below poolLow while backlogged. dbPending models
the GetPendingMessages result fillPool would receive. -/
def rspStep (poolSize poolLow : Nat) (pool : Finset String) (backlogged : Bool)
    (sms : SMS) (dbPending : Option (List SMS)) : RspOutcome :=
  if sms.status = .pending then
    { persisted := [sms], pool := pool, offers := [sms],
      backlogged := backlogged, refilled := false }
  else
    if (pool.erase sms.uuid).card = 0 ∨
        ((pool.erase sms.uuid).card < poolLow ∧ backlogged = true) then
      { persisted := [sms],
        pool := (fillPool poolSize (pool.erase sms.uuid) dbPending).pool,
        offers := (fillPool poolSize (pool.erase sms.uuid) dbPending).offers,
        backlogged := (fillPool poolSize (pool.erase sms.uuid) dbPending).backlogged,
        refilled := true }
    else
      { persisted := [sms], pool := pool.erase sms.uuid, offers := [],
        backlogged := backlogged, refilled := false }

/-- Sender.drainReq (internal/sender/sender.go lines 126-134): every message
pulled back from the closed req channel has its UUID deleted from the pool,
with no status change and no store call. The messages received before the
channel reported closed are passed as a list. -/
def drainReqLoop (pool : Finset String) : List SMS → Finset String
  | [] => pool
  | sms :: rest => drainReqLoop (pool.erase sms.uuid) rest

/-- The shutdown loop of Sender.Run (internal/sender/sender.go lines 67-71):
while the pool is non-empty, receive a result from the rsp channel, persist it
via UpdateMessageStatus, and delete its UUID from the pool. The stream of
results available on rsp is passed as a list; if it runs out while the pool is
still non-empty the loop would block forever, modelled as none. On success,
returns the list of results persisted (in order) and the final pool. -/
def drainRspLoop : List SMS → Finset String → Option (List SMS × Finset String)
  | results, pool =>
    if pool.card = 0 then some ([], pool)
    else
      match results with
      | [] => none
      | sms :: rest =>
        match drainRspLoop rest (pool.erase sms.uuid) with
        | none => none
        | some (persisted, final) => some (sms :: persisted, final)

/-- The controlled shutdown performed by Sender.Run on ctx.Done (internal/
sender/sender.go lines 63-72): close(req), drain the req channel deleting the
pulled-back messages from the pool, then drain the rsp channel persisting
every result until the pool is empty. -/
def shutdownDrain (pool : Finset String) (reqBuf results : List SMS) :
    Option (List SMS × Finset String) :=
  drainRspLoop results (drainReqLoop pool reqBuf)

/-- Modelled from the spec: the backoff timer used by GSMModem.monitor comes
from the external github.com/jpillora/backoff dependency, whose source is not
part of this repository. Per the spec it is an exponential backoff with a
configured minimum, maximum and multiplicative growth factor (the dependency
defaults the factor to 2 when unset, as monitor leaves it), whose produced
interval is clamped to lie within [min, max], and which is reset to the
minimum on every successful connect. Durations are in nanoseconds. -/
structure Backoff where
  min : Nat
  max : Nat
  attempt : Nat
deriving DecidableEq

/-- The interval produced for a given attempt number: min * 2^n, clamped to
[min, max] (the dependency returns min when the computed duration is below
min, then max when it is above max). -/
def Backoff.forAttempt (b : Backoff) (n : Nat) : Nat :=
  let d := b.min * 2 ^ n
  if d < b.min then b.min
  else if b.max < d then b.max
  else d

/-- Duration(): produce the interval for the current attempt counter and
advance the counter. -/
def Backoff.duration (b : Backoff) : Nat × Backoff :=
  (b.forAttempt b.attempt, { b with attempt := b.attempt + 1 })

/-- Reset(): set the attempt counter back to zero, so the next failure waits
the minimum interval again. GSMModem.monitor calls this right after
modem.Init succeeds. -/
def Backoff.reset (b : Backoff) : Backoff :=
  { b with attempt := 0 }

/-- The backoff configured in GSMModem.monitor (internal/modem/modem.go lines
38-41): Min = 1 second, Max = 5 minutes, in nanoseconds. -/
def monitorBackoff : Backoff :=
  { min := 1000000000, max := 300000000000, attempt := 0 }

/-! Concrete messages used as inputs in witnesses and counterexamples. -/

/-- A freshly submitted Pending message with UUID "A". -/
def smsA : SMS :=
  { uuid := "A", mobile := "111", body := "ha", status := .pending, retries := 0, device := "" }

/-- A freshly submitted Pending message with UUID "B". -/
def smsB : SMS :=
  { uuid := "B", mobile := "222", body := "hb", status := .pending, retries := 0, device := "" }

/-- A freshly submitted Pending message with UUID "C". -/
def smsC : SMS :=
  { uuid := "C", mobile := "333", body := "hc", status := .pending, retries := 0, device := "" }

/-- Message "A" as reported after a successful send on modem "m1". -/
def smsASent : SMS :=
  { uuid := "A", mobile := "111", body := "ha", status := .sent, retries := 0, device := "m1" }

/-- Message "B" as reported after exhausting its retries. -/
def smsBErrored : SMS :=
  { uuid := "B", mobile := "222", body := "hb", status := .errored, retries := 3, device := "" }

/-- A Pending message whose retry count has already reached SMSRetryLimit. -/
def smsAtLimit : SMS :=
  { uuid := "L", mobile := "444", body := "hl", status := .pending, retries := 3, device := "" }

/-- A three-element pool, as left by earlier admissions of "A", "B" and "C". -/
def poolABC : Finset String := {"A", "B", "C"}

/-- Claim C1 (code evaluated at the failing input): fillPool entered with the
pool already at capacity (poolSize = 1, pool = {A}) and the store returning a
message B not in the pool admits B before checking the bound, leaving two
identities in a pool of capacity one — the pool bound |pool| ≤ poolSize is
violated after a timer-triggered refill. -/
theorem c1_fillPool_overflows_poolSize :
    (fillPool 1 {"A"} (some [smsB])).pool.card = 2 ∧
    (fillPool 1 {"A"} (some [smsB])).offers = [smsB] ∧
    (fillPool 1 {"A"} (some [smsB])).backlogged = true := by
  decide

/-- Claim C2 (counterexample): a send failure classified as a timeout
(context.DeadlineExceeded) is neither link-closed nor outer cancellation, yet
with the retry count already at SMSRetryLimit the message is reported
unmodified — its status stays Pending instead of being set to Errored and its
retry count is not incremented. -/
theorem c2_timeout_counterexample :
    SMSRetryLimit ≤ smsAtLimit.retries ∧
    senderStep "m1" smsAtLimit .deadlineExceeded = .report smsAtLimit ∧
    smsAtLimit.status = .pending := by
  decide

/-- Claim C2 (amended): for a send failure in the default error class (any
error other than nil, link-closed, outer cancellation, or the per-message
timeout context.DeadlineExceeded), a message at the retry limit is marked
Errored and otherwise has its retry count incremented with status left
unchanged, and is reported on the result channel either way; a
DeadlineExceeded failure is instead reported unmodified. -/
theorem c2_default_failure_retry_or_errored (deviceID : String) (sms : SMS) :
    (SMSRetryLimit ≤ sms.retries →
      senderStep deviceID sms .other = .report { sms with status := .errored }) ∧
    (sms.retries < SMSRetryLimit →
      senderStep deviceID sms .other = .report { sms with retries := sms.retries + 1 }) ∧
    senderStep deviceID sms .deadlineExceeded = .report sms := by
  refine ⟨fun h => ?_, fun h => ?_, rfl⟩
  · simp only [senderStep, if_pos h]
  · simp only [senderStep, if_neg (by omega : ¬ SMSRetryLimit ≤ sms.retries)]

/-- Witness for c2_default_failure_retry_or_errored at a concrete message at
the retry limit. -/
theorem c2_default_failure_witness :
    SMSRetryLimit ≤ smsAtLimit.retries ∧
    senderStep "m1" smsAtLimit .other = .report { smsAtLimit with status := .errored } :=
  ⟨by decide, (c2_default_failure_retry_or_errored "m1" smsAtLimit).1 (by decide)⟩

/-- Claim C3: the rsp-channel branch always persists the received message
first; a Pending result is re-offered with the pool, backlogged flag and
refill state untouched; a terminal result has its UUID erased from the pool
and triggers fillPool exactly when the pool became empty or fell below
poolLow while backlogged. -/
theorem c3_result_handling :
    ∀ (poolSize poolLow : Nat) (pool : Finset String) (bl : Bool) (sms : SMS)
      (dbp : Option (List SMS)),
      (rspStep poolSize poolLow pool bl sms dbp).persisted = [sms] ∧
      (sms.status = .pending →
        rspStep poolSize poolLow pool bl sms dbp =
          { persisted := [sms], pool := pool, offers := [sms],
            backlogged := bl, refilled := false }) ∧
      (sms.status ≠ .pending →
        ((rspStep poolSize poolLow pool bl sms dbp).refilled = true ↔
          ((pool.erase sms.uuid).card = 0 ∨
           ((pool.erase sms.uuid).card < poolLow ∧ bl = true))) ∧
        ((rspStep poolSize poolLow pool bl sms dbp).refilled = false →
          rspStep poolSize poolLow pool bl sms dbp =
            { persisted := [sms], pool := pool.erase sms.uuid, offers := [],
              backlogged := bl, refilled := false }) ∧
        ((rspStep poolSize poolLow pool bl sms dbp).refilled = true →
          rspStep poolSize poolLow pool bl sms dbp =
            { persisted := [sms],
              pool := (fillPool poolSize (pool.erase sms.uuid) dbp).pool,
              offers := (fillPool poolSize (pool.erase sms.uuid) dbp).offers,
              backlogged := (fillPool poolSize (pool.erase sms.uuid) dbp).backlogged,
              refilled := true })) := by
  intro poolSize poolLow pool bl sms dbp
  by_cases hp : sms.status = .pending
  · simp [rspStep, hp]
  · by_cases hc : ((pool.erase sms.uuid).card = 0 ∨
        ((pool.erase sms.uuid).card < poolLow ∧ bl = true))
    · have hstep : rspStep poolSize poolLow pool bl sms dbp =
          { persisted := [sms],
            pool := (fillPool poolSize (pool.erase sms.uuid) dbp).pool,
            offers := (fillPool poolSize (pool.erase sms.uuid) dbp).offers,
            backlogged := (fillPool poolSize (pool.erase sms.uuid) dbp).backlogged,
            refilled := true } := by
        unfold rspStep
        rw [if_neg hp, if_pos hc]
      rw [hstep]
      refine ⟨rfl, fun h => absurd h hp, fun _ => ⟨?_, ?_, ?_⟩⟩
      · exact ⟨fun _ => hc, fun _ => rfl⟩
      · intro hfalse; cases hfalse
      · intro _; rfl
    · have hstep : rspStep poolSize poolLow pool bl sms dbp =
          { persisted := [sms], pool := pool.erase sms.uuid, offers := [],
            backlogged := bl, refilled := false } := by
        unfold rspStep
        rw [if_neg hp, if_neg hc]
      rw [hstep]
      refine ⟨rfl, fun h => absurd h hp, fun _ => ⟨?_, ?_, ?_⟩⟩
      · exact Iff.intro (fun h => absurd h Bool.false_ne_true) (fun h => absurd h hc)
      · intro _; rfl
      · intro htrue; cases htrue

/-- Witness for c3_result_handling: a terminal result for "A" received while
the pool holds {A, B} erases "A" and, the remaining pool being neither empty
nor below poolLow = 1, triggers no refill. -/
theorem c3_result_handling_witness :
    smsASent.status ≠ .pending ∧
    ((rspStep 2 1 {"A", "B"} false smsASent none).refilled = true ↔
      ((({"A", "B"} : Finset String).erase smsASent.uuid).card = 0 ∨
       ((({"A", "B"} : Finset String).erase smsASent.uuid).card < 1 ∧ false = true))) :=
  ⟨by decide, ((c3_result_handling 2 1 {"A", "B"} false smsASent none).2.2 (by decide)).1⟩

/-- Claim C4: fillPool reports backlogged exactly when the store call
succeeded with at least poolSize rows, and on a store error it admits
nothing, leaves the pool unchanged and reports false. -/
theorem c4_fillPool_backlogged_iff :
    ∀ (poolSize : Nat) (pool : Finset String) (dbResult : Option (List SMS)),
      ((fillPool poolSize pool dbResult).backlogged = true ↔
        ∃ rows, dbResult = some rows ∧ poolSize ≤ rows.length) ∧
      (dbResult = none →
        fillPool poolSize pool dbResult =
          { pool := pool, offers := [], backlogged := false }) := by
  intro poolSize pool dbResult
  cases dbResult with
  | none => simp [fillPool]
  | some rows =>
    constructor
    · by_cases h : poolSize ≤ rows.length <;> simp [fillPool, h]
    · intro hn; cases hn

/-- Witness for c4_fillPool_backlogged_iff at a concrete store error. -/
theorem c4_fillPool_backlogged_witness :
    (none : Option (List SMS)) = none ∧
    fillPool 3 {"A"} (none : Option (List SMS)) =
      { pool := {"A"}, offers := [], backlogged := false } :=
  ⟨rfl, (c4_fillPool_backlogged_iff 3 {"A"} none).2 rfl⟩

/-- Every identity in the pool either survives drainReq or belongs to a
message pulled back from the req channel. -/
theorem mem_drainReqLoop (u : String) :
    ∀ (reqBuf : List SMS) (pool : Finset String), u ∈ pool →
      u ∈ drainReqLoop pool reqBuf ∨ u ∈ reqBuf.map SMS.uuid := by
  intro reqBuf
  induction reqBuf with
  | nil => intro pool hu; exact Or.inl hu
  | cons sms rest ih =>
    intro pool hu
    by_cases he : u = sms.uuid
    · exact Or.inr (by simp [he])
    · simp only [drainReqLoop]
      rcases ih (pool.erase sms.uuid) (Finset.mem_erase.mpr ⟨he, hu⟩) with h | h
      · exact Or.inl h
      · exact Or.inr (by simp [h])

/-- When the shutdown rsp-drain loop returns, the final pool is empty, every
identity that entered it was erased by a persisted result, and the persisted
results are exactly an initial segment of the available result stream. -/
theorem drainRspLoop_spec :
    ∀ (results : List SMS) (pool : Finset String) (persisted : List SMS)
      (final : Finset String),
      drainRspLoop results pool = some (persisted, final) →
      final = ∅ ∧ (∀ u ∈ pool, u ∈ persisted.map SMS.uuid) ∧
      persisted = results.take persisted.length := by
  intro results
  induction results with
  | nil =>
    intro pool persisted final h
    simp only [drainRspLoop] at h
    by_cases hc : pool.card = 0
    · rw [if_pos hc] at h
      simp only [Option.some.injEq, Prod.mk.injEq] at h
      obtain ⟨h1, h2⟩ := h
      subst h1; subst h2
      refine ⟨Finset.card_eq_zero.mp hc, ?_, rfl⟩
      intro u hu
      rw [Finset.card_eq_zero.mp hc] at hu
      cases hu
    · rw [if_neg hc] at h
      cases h
  | cons sms rest ih =>
    intro pool persisted final h
    simp only [drainRspLoop] at h
    by_cases hc : pool.card = 0
    · rw [if_pos hc] at h
      simp only [Option.some.injEq, Prod.mk.injEq] at h
      obtain ⟨h1, h2⟩ := h
      subst h1; subst h2
      refine ⟨Finset.card_eq_zero.mp hc, ?_, rfl⟩
      intro u hu
      rw [Finset.card_eq_zero.mp hc] at hu
      cases hu
    · rw [if_neg hc] at h
      cases hrec : drainRspLoop rest (pool.erase sms.uuid) with
      | none => rw [hrec] at h; cases h
      | some pr =>
        obtain ⟨ps, fin⟩ := pr
        rw [hrec] at h
        simp only [Option.some.injEq, Prod.mk.injEq] at h
        obtain ⟨h1, h2⟩ := h
        subst h1; subst h2
        obtain ⟨hfin, hmem, htake⟩ := ih (pool.erase sms.uuid) ps fin hrec
        refine ⟨hfin, ?_, ?_⟩
        · intro u hu
          by_cases he : u = sms.uuid
          · simp [he]
          · have := hmem u (Finset.mem_erase.mpr ⟨he, hu⟩)
            simp only [List.map_cons, List.mem_cons]
            exact Or.inr this
        · simp only [List.length_cons, List.take_succ_cons]
          rw [← htake]

/-- Claim C5: when the controlled shutdown completes, the pool is empty, the
persisted results are exactly the initial segment of the result stream that
was consumed, and every identity that was in the pool was either pulled back
from the req channel without a status change or persisted from a drained
result — no message is left in an in-memory-only state. -/
theorem c5_drain_completeness :
    ∀ (pool : Finset String) (reqBuf results persisted : List SMS)
      (final : Finset String),
      shutdownDrain pool reqBuf results = some (persisted, final) →
      final = ∅ ∧ persisted = results.take persisted.length ∧
      ∀ u ∈ pool, u ∈ reqBuf.map SMS.uuid ∨ u ∈ persisted.map SMS.uuid := by
  intro pool reqBuf results persisted final h
  obtain ⟨hfin, hmem, htake⟩ :=
    drainRspLoop_spec results (drainReqLoop pool reqBuf) persisted final h
  refine ⟨hfin, htake, ?_⟩
  intro u hu
  rcases mem_drainReqLoop u reqBuf pool hu with h1 | h1
  · exact Or.inr (hmem u h1)
  · exact Or.inl h1

/-- Witness for c5_drain_completeness: pool {A, B, C}, message C pulled back
from the req channel, results for A and B drained from the rsp channel. -/
theorem c5_drain_completeness_witness :
    shutdownDrain poolABC [smsC] [smsASent, smsBErrored] =
      some ([smsASent, smsBErrored], ∅) ∧
    ((∅ : Finset String) = ∅ ∧
     [smsASent, smsBErrored] =
       [smsASent, smsBErrored].take [smsASent, smsBErrored].length ∧
     ∀ u ∈ poolABC, u ∈ [smsC].map SMS.uuid ∨
       u ∈ [smsASent, smsBErrored].map SMS.uuid) :=
  ⟨by decide, c5_drain_completeness poolABC [smsC] [smsASent, smsBErrored]
    [smsASent, smsBErrored] ∅ (by decide)⟩

/-- Claim C6 (counterexample): when the send attempt ends with
context.Canceled, the consumption loop does not exit without reporting — the
empty case body falls through to the unconditional rsp send, so the message
is reported unmodified and the loop continues. -/
theorem c6_canceled_counterexample :
    senderStep "m1" smsA .canceled = .report smsA ∧
    senderStep "m1" smsA .canceled ≠ .exit := by
  decide

/-- Claim C6 (amended): when the send attempt ends because the outer context
was canceled mid-send, the message is reported on the result channel
unmodified and the consumption loop continues (it exits only when a later
iteration observes ctx.Done, modem.Closed, or the closed req channel). -/
theorem c6_canceled_reports_unmodified (deviceID : String) (sms : SMS) :
    senderStep deviceID sms .canceled = .report sms :=
  rfl

/-- Claim C7: across the modem send step the retry count never decreases, a
message becomes Errored only when its retry count had already reached
SMSRetryLimit, and the coordinator's result handling persists exactly the
message it received. -/
theorem c7_retry_monotonicity :
    ∀ (deviceID : String) (sms : SMS) (e : SendErr) (out : SMS),
      ((senderStep deviceID sms e).reported = some out →
        sms.retries ≤ out.retries ∧
        (out.status = .errored → sms.status = .errored ∨ SMSRetryLimit ≤ sms.retries)) ∧
      ∀ (poolSize poolLow : Nat) (pool : Finset String) (bl : Bool)
        (dbp : Option (List SMS)),
        (rspStep poolSize poolLow pool bl sms dbp).persisted = [sms] := by
  intro deviceID sms e out
  constructor
  · intro h
    cases e with
    | ok =>
      simp only [senderStep, SenderAction.reported, Option.some.injEq] at h
      subst h
      exact ⟨le_refl _, by intro he; cases he⟩
    | errClosed =>
      simp only [senderStep, SenderAction.reported, Option.some.injEq] at h
      subst h
      exact ⟨le_refl _, fun he => Or.inl he⟩
    | canceled =>
      simp only [senderStep, SenderAction.reported, Option.some.injEq] at h
      subst h
      exact ⟨le_refl _, fun he => Or.inl he⟩
    | deadlineExceeded =>
      simp only [senderStep, SenderAction.reported, Option.some.injEq] at h
      subst h
      exact ⟨le_refl _, fun he => Or.inl he⟩
    | other =>
      by_cases hl : SMSRetryLimit ≤ sms.retries
      · simp only [senderStep, if_pos hl, SenderAction.reported, Option.some.injEq] at h
        subst h
        exact ⟨le_refl _, fun _ => Or.inr hl⟩
      · simp only [senderStep, if_neg hl, SenderAction.reported, Option.some.injEq] at h
        subst h
        refine ⟨?_, fun he => Or.inl he⟩
        show sms.retries ≤ sms.retries + 1
        omega
  · intro poolSize poolLow pool bl dbp
    unfold rspStep
    split
    · rfl
    · split
      · rfl
      · rfl

/-- Witness for c7_retry_monotonicity at a concrete default-class failure. -/
theorem c7_retry_monotonicity_witness :
    (senderStep "m1" smsA .other).reported = some { smsA with retries := smsA.retries + 1 } ∧
    (smsA.retries ≤ ({ smsA with retries := smsA.retries + 1 } : SMS).retries ∧
     (({ smsA with retries := smsA.retries + 1 } : SMS).status = .errored →
       smsA.status = .errored ∨ SMSRetryLimit ≤ smsA.retries)) :=
  ⟨by decide,
   (c7_retry_monotonicity "m1" smsA .other { smsA with retries := smsA.retries + 1 }).1
     (by decide)⟩

/-- Claim C8 (counterexample): with the store insert failing (duplicate
identity), the producer-visible result of AddMessage carries no error, the
coordinator's behavior is identical to the success case, and the message is
still admitted and offered — the InsertMessage error is not surfaced to the
producer. -/
theorem c8_insert_error_not_surfaced_counterexample :
    addMessageProducerResult smsA true = none ∧
    addStep 2 ∅ false smsA true = addStep 2 ∅ false smsA false ∧
    (addStep 2 ∅ false smsA true).offers = [smsA] := by
  refine ⟨rfl, rfl, by decide⟩

/-- Claim C8 (amended): submission-time store errors are not surfaced:
AddMessage returns nothing to the producer regardless of the InsertMessage
outcome, and the coordinator's add-channel handling is independent of that
outcome. -/
theorem c8_amended_insert_error_ignored :
    ∀ (sms : SMS) (insertErr : Bool) (poolSize : Nat) (pool : Finset String)
      (bl : Bool),
      addMessageProducerResult sms insertErr = none ∧
      addStep poolSize pool bl sms insertErr = addStep poolSize pool bl sms true := by
  intro sms insertErr poolSize pool bl
  exact ⟨rfl, rfl⟩

/-- Claim C9: every interval produced by the connection backoff lies within
[min, max] whenever min ≤ max, and after a reset (performed on every
successful connect) the next interval is exactly the minimum. -/
theorem c9_backoff_bounds :
    ∀ (b : Backoff), b.min ≤ b.max →
      (∀ n : Nat, b.min ≤ b.forAttempt n ∧ b.forAttempt n ≤ b.max) ∧
      (b.min ≤ b.duration.1 ∧ b.duration.1 ≤ b.max) ∧
      b.reset.duration.1 = b.min := by
  intro b hminmax
  have hfa : ∀ n : Nat, b.min ≤ b.forAttempt n ∧ b.forAttempt n ≤ b.max := by
    intro n
    unfold Backoff.forAttempt
    by_cases h1 : b.min * 2 ^ n < b.min
    · rw [if_pos h1]
      exact ⟨le_refl _, hminmax⟩
    · rw [if_neg h1]
      by_cases h2 : b.max < b.min * 2 ^ n
      · rw [if_pos h2]
        exact ⟨hminmax, le_refl _⟩
      · rw [if_neg h2]
        exact ⟨Nat.le_of_not_lt h1, Nat.le_of_not_lt h2⟩
  refine ⟨hfa, (hfa b.attempt), ?_⟩
  show b.reset.forAttempt 0 = b.min
  unfold Backoff.reset Backoff.forAttempt
  simp only [pow_zero, mul_one]
  rw [if_neg (lt_irrefl b.min), if_neg (Nat.not_lt.mpr hminmax)]

/-- Witness for c9_backoff_bounds at the backoff configured in
GSMModem.monitor (Min = 1 s, Max = 5 min). -/
theorem c9_backoff_bounds_witness :
    monitorBackoff.min ≤ monitorBackoff.max ∧
    (monitorBackoff.min ≤ monitorBackoff.duration.1 ∧
     monitorBackoff.duration.1 ≤ monitorBackoff.max) ∧
    monitorBackoff.reset.duration.1 = monitorBackoff.min :=
  ⟨by decide,
   (c9_backoff_bounds monitorBackoff (by decide)).2.1,
   (c9_backoff_bounds monitorBackoff (by decide)).2.2⟩

/-- Claim C10: the coordinator's add-channel handling ignores the
InsertMessage result entirely — admission and the offer depend only on pool
capacity and the backlogged flag, so a message whose durable insert failed
can still be admitted and dispatched. -/
theorem c10_admission_ignores_insert_error :
    ∀ (poolSize : Nat) (pool : Finset String) (bl : Bool) (sms : SMS)
      (e1 e2 : Bool),
      addStep poolSize pool bl sms e1 = addStep poolSize pool bl sms e2 ∧
      ((addStep poolSize pool bl sms e1).offers = [sms] ↔
        (pool.card < poolSize ∧ bl = false)) ∧
      (addStep poolSize pool bl sms e1).pool =
        (if pool.card < poolSize ∧ bl = false then insert sms.uuid pool else pool) := by
  intro poolSize pool bl sms e1 e2
  refine ⟨rfl, ?_, ?_⟩
  · by_cases h : pool.card < poolSize ∧ bl = false <;> simp [addStep, h]
  · by_cases h : pool.card < poolSize ∧ bl = false <;> simp [addStep, h]

/-- Witness for c10_admission_ignores_insert_error: a failed insert into an
empty pool of capacity 2 still admits and offers the message. -/
theorem c10_admission_witness :
    (addStep 2 ∅ false smsA true).offers = [smsA] ↔
      ((∅ : Finset String).card < 2 ∧ false = false) :=
  (c10_admission_ignores_insert_error 2 ∅ false smsA true false).2.1

end GoatSMS
